import Mathlib

/-
Verification development for the pte_decode decoding layer
(src/pte_decode/decoding/decoder_base.py and decoder_factory.py).

Shallow embedding conventions:
- a numeric table (pandas DataFrame / 2-D numpy array) is a List of rows,
  each row a List of rationals;
- a 1-D label / group / weight vector is a List of rationals;
- a Python exception is a value of the inductive type PyExc, and fallible
  Python code is embedded as a function into Except PyExc;
- the external resampling capabilities (imblearn RandomOverSampler, SMOTE,
  BorderlineSMOTE, ADASYN, RandomUnderSampler) and sklearn helpers are
  opaque collaborators per the design, so they are passed in as function
  parameters (a ResampleCaps record, a split capability);
- a Python value used as a balancing "method" can be a string, True, False
  or None; the inductive BMethod covers these cases.  In Python none of
  True, False, None compares equal to any string, which the embedding
  reflects by making the constructors distinct.
-/

abbrev Data := List (List ℚ)

abbrev Labels := List ℚ

abbrev Groups := List ℚ

abbrev Weights := List ℚ

/-- Possible runtime values of the `method` / `balancing` argument:
a string, Python True, Python False, or Python None. -/
inductive BMethod where
  | str (s : String)
  | pyTrue
  | pyFalse
  | pyNone
deriving DecidableEq, Repr

/-- Python exceptions that the embedded code can raise. -/
inductive PyExc where
  | valueError (args : List String)
  | attributeError (msg : String)
  | indexError (msg : String)
  | balancingMethodNotFound (input : BMethod) (allowed : List BMethod)
  | scoringMethodNotFound (input : String) (allowed : List String)
  | decoderNotFound (input : String) (allowed : List String)
deriving DecidableEq, Repr

/-- Exact message matched by the adasyn except-clause in
`Decoder._balance_samples` (decoder_base.py lines 145-148). -/
def noSamplesMsg : String :=
  "No samples will be generated with the provided ratio settings."

/-- The `balancing_methods` list of `Decoder._balance_samples`
(decoder_base.py lines 115-124), used as the allow-list carried by
`BalancingMethodNotFoundError`.  Note it contains the string
"balance_weights" and the Python booleans True and False. -/
def balancingMethods : List BMethod :=
  [.str "oversample", .str "smote", .str "borderline_smote", .str "adasyn",
   .str "undersample", .str "balance_weights", .pyTrue, .pyFalse]

/-- External resampling / weighting capabilities consumed by
`Decoder._balance_samples`, treated as opaque collaborators. -/
structure ResampleCaps where
  randomOverSampler : Data → Labels → Except PyExc (Data × Labels)
  smote : Data → Labels → Except PyExc (Data × Labels)
  borderlineSmote : Data → Labels → Except PyExc (Data × Labels)
  adasyn : Data → Labels → Except PyExc (Data × Labels)
  randomUnderSampler : Data → Labels → Except PyExc (Data × Labels)
  computeSampleWeight : Labels → Weights

/-- Arithmetic mean of a list of rationals, embedding `np.mean` on the
label vector (an empty vector gives 0, which, like the NaN that numpy
produces there, is unequal to 1/2 and so enters the dispatch branch). -/
def listMean (l : List ℚ) : ℚ := l.sum / l.length

/-- Test performed by the adasyn except-clause: the caught error is a
ValueError whose first argument is exactly `noSamplesMsg`
(decoder_base.py lines 144-151).  Any other error is re-raised, and
non-ValueError exceptions are not caught at all, so every error not
satisfying this test propagates. -/
def isNoSamplesAdasynError : PyExc → Bool
  | .valueError (a :: _) => a = noSamplesMsg
  | _ => false

/-- Embedding of `Decoder._balance_samples` (decoder_base.py lines
87-161).  `sample_weight` starts as None; the dispatch only runs when
`np.mean(labels) != 0.5`; the if/elif chain compares `method` against the
string literals "oversample", "smote", "borderline_smote", "adasyn",
"undersample" and "weight" in that order, and the final else raises
`BalancingMethodNotFoundError(method, balancing_methods)`. -/
def balance_samples (caps : ResampleCaps) (data : Data) (labels : Labels)
    (method : BMethod) : Except PyExc (Data × Labels × Option Weights) :=
  if listMean labels ≠ 1/2 then
    if method = .str "oversample" then
      match caps.randomOverSampler data labels with
      | .ok (d, l) => .ok (d, l, none)
      | .error e => .error e
    else if method = .str "smote" then
      match caps.smote data labels with
      | .ok (d, l) => .ok (d, l, none)
      | .error e => .error e
    else if method = .str "borderline_smote" then
      match caps.borderlineSmote data labels with
      | .ok (d, l) => .ok (d, l, none)
      | .error e => .error e
    else if method = .str "adasyn" then
      match caps.adasyn data labels with
      | .ok (d, l) => .ok (d, l, none)
      | .error e =>
          if isNoSamplesAdasynError e then .ok (data, labels, none)
          else .error e
    else if method = .str "undersample" then
      match caps.randomUnderSampler data labels with
      | .ok (d, l) => .ok (d, l, none)
      | .error e => .error e
    else if method = .str "weight" then
      .ok (data, labels, some (caps.computeSampleWeight labels))
    else
      .error (.balancingMethodNotFound method balancingMethods)
  else .ok (data, labels, none)

/-- The exact set of method strings that the if/elif chain of
`_balance_samples` dispatches on (everything else reaches the raise). -/
def dispatchStrings : List String :=
  ["oversample", "smote", "borderline_smote", "adasyn", "undersample",
   "weight"]

/-- A resampling-capability record where every sampler returns its input
unchanged, the adasyn capability reports the degenerate no-samples
ValueError, and sample weights are all 1; used to evaluate the embedded
code on concrete inputs. -/
def idCaps : ResampleCaps where
  randomOverSampler := fun d l => .ok (d, l)
  smote := fun d l => .ok (d, l)
  borderlineSmote := fun d l => .ok (d, l)
  adasyn := fun _ _ => .error (.valueError [noSamplesMsg])
  randomUnderSampler := fun d l => .ok (d, l)
  computeSampleWeight := fun l => l.map (fun _ => 1)

lemma mean_zero_one_one : listMean [0, 1, 1] ≠ 1/2 := by
  norm_num [listMean]

lemma mean_zero_one : listMean [0, 1] = 1/2 := by
  norm_num [listMean]

lemma mean_zero : listMean [0] ≠ 1/2 := by
  norm_num [listMean]

example :
    balance_samples idCaps [[1], [2], [3]] [0, 1, 1] (.str "oversample")
      = .ok ([[1], [2], [3]], [0, 1, 1], none) := by
  unfold balance_samples
  rw [if_pos mean_zero_one_one]
  rfl

example :
    balance_samples idCaps [[1], [2], [3]] [0, 1, 1] (.str "balance_weights")
      = .error (.balancingMethodNotFound (.str "balance_weights")
          balancingMethods) := by
  unfold balance_samples
  rw [if_pos mean_zero_one_one]
  rfl

example :
    balance_samples idCaps [[1], [2]] [0, 1] (.str "bogus")
      = .ok ([[1], [2]], [0, 1], none) := by
  unfold balance_samples
  rw [if_neg (not_not_intro mean_zero_one)]

/-- A labels argument as it reaches `Decoder._get_validation_split`: a
one-dimensional vector (pandas Series / 1-D numpy array, the shape the
backends pass) or a two-dimensional array. -/
inductive NpArr where
  | oneD (v : List ℚ)
  | twoD (m : List (List ℚ))
deriving DecidableEq, Repr

/-- Row selection `x.iloc[idx, :]` (equivalently `x[idx, :]` on a 2-D
numpy array): picks the rows at the given positions; an out-of-range
position raises IndexError. -/
def selectRows (m : List (List ℚ)) (idx : List Nat) :
    Except PyExc (List (List ℚ)) :=
  if idx.all (fun i => decide (i < m.length)) then
    .ok (idx.map (fun i => m.getD i []))
  else .error (.indexError "index out of bounds")

/-- Two-dimensional indexing `labels[idx, :]` as applied to the labels
argument in `_get_validation_split` (decoder_base.py lines 80-83): on a
1-D vector this indexing expression raises (numpy: too many indices for
array; a pandas Series likewise rejects the tuple key), and on a 2-D
array it selects rows. -/
def indexRows2D : NpArr → List Nat → Except PyExc NpArr
  | .oneD _, _ => .error (.indexError "too many indices for array")
  | .twoD m, idx => (selectRows m idx).map NpArr.twoD

/-- The grouped-split capability used by `_get_validation_split`:
`GroupShuffleSplit(n_splits=1, train_size=train_size)` produces a single
random (train indices, validation indices) pair, consumed via
`next(...)`.  It is an external sklearn collaborator, so it is a
parameter of the embedding. -/
abbrev GroupSplitCap := Data → NpArr → Groups → ℚ → List Nat × List Nat

/-- Embedding of `Decoder._get_validation_split` (decoder_base.py lines
66-85): take the single (train, val) index pair from the grouped-split
capability, slice `data.iloc[train_ind, :]` and `data.iloc[val_ind, :]`,
then slice `labels[train_ind, :]` and `labels[val_ind, :]`, and return
`(data_train, labels_train, [(data_val, labels_val)])`. -/
def getValidationSplit (cap : GroupSplitCap) (data : Data) (labels : NpArr)
    (groups : Groups) (train_size : ℚ) :
    Except PyExc (Data × NpArr × List (Data × NpArr)) :=
  let (train_ind, val_ind) := cap data labels groups train_size
  match selectRows data train_ind with
  | .error e => .error e
  | .ok data_train =>
    match selectRows data val_ind with
    | .error e => .error e
    | .ok data_val =>
      match indexRows2D labels train_ind with
      | .error e => .error e
      | .ok labels_train =>
        match indexRows2D labels val_ind with
        | .error e => .error e
        | .ok labels_val =>
          .ok (data_train, labels_train, [(data_val, labels_val)])

/-- A concrete grouped-split capability for evaluating the embedding: it
always puts row 0 in the training side and row 1 in the validation
side. -/
def capZeroOne : GroupSplitCap := fun _ _ _ _ => ([0], [1])

example :
    getValidationSplit capZeroOne [[1], [2]] (.twoD [[0], [1]]) [0, 1] (4/5)
      = .ok ([[1]], .twoD [[0]], [([[2]], .twoD [[1]])]) := by rfl

example :
    getValidationSplit capZeroOne [[1], [2]] (.oneD [0, 1]) [0, 1] (4/5)
      = .error (.indexError "too many indices for array") := by rfl

/-- The classifier registry of `get_decoder` (decoder_factory.py lines
51-61): keys of the `classifiers` dict (the SVM entries are commented
out in the source). -/
def registryNames : List String :=
  ["catboost", "dummy", "lda", "lr", "qda", "xgb"]

/-- The scoring registry of `get_decoder` (decoder_factory.py lines
62-65): keys of the `scoring_methods` dict. -/
def scoringNames : List String := ["balanced_accuracy", "log_loss"]

/-- Backend selected by the factory. -/
inductive BackendTag where
  | catb
  | dummy
  | lda
  | lr
  | qda
  | xgb
deriving DecidableEq, Repr

/-- Scoring function injected by the factory. -/
inductive ScoringTag where
  | balancedAccuracy
  | logLoss
deriving DecidableEq, Repr

/-- An unfitted Decoder as constructed by the factory: backend type plus
the three constructor arguments (scoring, balancing, optimize). -/
structure DecoderObj where
  backend : BackendTag
  balancing : BMethod
  optimize : Bool
  scoring : ScoringTag
deriving DecidableEq, Repr

/-- A Python dict_keys view object, as produced by `classifiers.keys()`
in `get_decoder` (decoder_factory.py line 72). -/
structure DictKeys where
  keys : List String
deriving DecidableEq, Repr

/-- Attribute lookup on a dict_keys view.  Per the Python data model, a
dictionary view object exposes the method `isdisjoint` and the read-only
attribute `mapping`; it is not a dict and in particular has no attribute
named `values`, so any other attribute name raises AttributeError. -/
def DictKeys.getattr (dk : DictKeys) (name : String) :
    Except PyExc (List String) :=
  if name = "isdisjoint" ∨ name = "mapping" then .ok dk.keys
  else .error (.attributeError ("dict_keys object has no attribute " ++ name))

/-- Construction of a `DecoderNotFoundError` object (decoder_factory.py
lines 128-137): `__init__` stores `input_value`, then evaluates
`allowed.values` on the argument it was given; `get_decoder` passes
`classifiers.keys()`, a dict_keys view, so this attribute access is
embedded through `DictKeys.getattr`. -/
def mkDecoderNotFoundError (input_value : String) (allowed : DictKeys) :
    Except PyExc (String × List String) :=
  match DictKeys.getattr allowed "values" with
  | .ok vs => .ok (input_value, vs)
  | .error e => .error e

/-- Embedding of `LDA.__post_init__` (decoder_factory.py lines 295-307):
raise ValueError when `balancing == "balance_weights"`, then raise
ValueError when `optimize` is truthy; otherwise construction proceeds.
No data argument exists at this point. -/
def ldaPostInit (balancing : BMethod) (optimize : Bool) :
    Except PyExc Unit :=
  if balancing = .str "balance_weights" then
    .error (.valueError
      ["Sample weights cannot be balanced for Linear Discriminant Analysis."])
  else if optimize then
    .error (.valueError
      ["Hyperparameter optimization cannot be performed for this implementation of Linear Discriminant Analysis."])
  else .ok ()

/-- Embedding of `QDA.__post_init__` (decoder_factory.py lines 439-451):
same two checks as `LDA.__post_init__`. -/
def qdaPostInit (balancing : BMethod) (optimize : Bool) :
    Except PyExc Unit :=
  if balancing = .str "balance_weights" then
    .error (.valueError
      ["Sample weights cannot be balanced for Quadratic Discriminant Analysis."])
  else if optimize then
    .error (.valueError
      ["Hyperparameter optimization cannot be performed for this implementation of Quadratic Discriminant Analysis."])
  else .ok ()

/-- Python `str.lower()`, embedded as per-character lowering of the
underlying character list. -/
def strLower (s : String) : String := String.mk (s.data.map Char.toLower)

/-- Lowercasing applied to the balancing argument in `get_decoder`
(decoder_factory.py line 68): only applied when it is a string. -/
def bmethodLower : BMethod → BMethod
  | .str s => .str (strLower s)
  | m => m

/-- Scoring tag for a name already validated against `scoringNames`. -/
def scoringTagOf (s : String) : ScoringTag :=
  if s = "balanced_accuracy" then .balancedAccuracy else .logLoss

/-- Dataclass construction dispatched on the (lowercased) classifier
name, as performed by `classifiers[classifier](...)` in `get_decoder`
(decoder_factory.py lines 75-79); for "lda" and "qda" the dataclass
machinery runs `__post_init__` during construction. -/
def mkBackend (c : String) (b : BMethod) (o : Bool) (sc : ScoringTag) :
    Except PyExc DecoderObj :=
  if c = "lda" then
    match ldaPostInit b o with
    | .ok _ => .ok ⟨.lda, b, o, sc⟩
    | .error e => .error e
  else if c = "qda" then
    match qdaPostInit b o with
    | .ok _ => .ok ⟨.qda, b, o, sc⟩
    | .error e => .error e
  else if c = "catboost" then .ok ⟨.catb, b, o, sc⟩
  else if c = "dummy" then .ok ⟨.dummy, b, o, sc⟩
  else if c = "lr" then .ok ⟨.lr, b, o, sc⟩
  else .ok ⟨.xgb, b, o, sc⟩

/-- Embedding of `get_decoder` (decoder_factory.py lines 26-79):
lowercase the classifier, balancing (when a string) and scoring names;
an unknown classifier reaches
`raise DecoderNotFoundError(classifier, classifiers.keys())`, whose
construction is embedded by `mkDecoderNotFoundError` (an exception
raised while the error object is being built propagates instead); an
unknown scoring name raises `ScoringMethodNotFoundError`; otherwise the
selected backend dataclass is constructed. -/
def get_decoder (classifier : String) (scoring : String)
    (balancing : BMethod) (optimize : Bool) : Except PyExc DecoderObj :=
  let c := strLower classifier
  let b := bmethodLower balancing
  let s := strLower scoring
  if c ∈ registryNames then
    if s ∈ scoringNames then mkBackend c b optimize (scoringTagOf s)
    else .error (.scoringMethodNotFound s scoringNames)
  else
    match mkDecoderNotFoundError c ⟨registryNames⟩ with
    | .ok e => .error (.decoderNotFound e.1 e.2)
    | .error e2 => .error e2

example :
    get_decoder "XGB" "log_loss" .pyNone false
      = .ok ⟨.xgb, .pyNone, false, .logLoss⟩ := by rfl

example :
    get_decoder "bogus" "balanced_accuracy" .pyNone false
      = .error (.attributeError "dict_keys object has no attribute values") :=
  by rfl

example :
    get_decoder "lda" "log_loss" (.str "balance_weights") false
      = .error (.valueError
          ["Sample weights cannot be balanced for Linear Discriminant Analysis."]) :=
  by rfl

/-- The validation-split step as invoked at the top of
`CATB.fit_and_predict` and `XGB.fit_and_predict` with train_size 0.8,
abstracted as a capability producing the contract triple
`(data_train, labels_train, eval_set)`; its internal indexing behavior
is embedded separately by `getValidationSplit`. -/
abbrev FitSplitCap := Data → Labels → Groups → Data × Labels × List (Data × Labels)

/-- Observable dataflow of one boosting `fit_and_predict` call:
which (data, labels) pair was handed to `_balance_samples`, the eval_set
handed to `model.fit`, and the (data, labels, sample_weight) that
`model.fit` receives. -/
structure BoostTrace where
  balance_input : Data × Labels
  eval_set : List (Data × Labels)
  fit_data : Data
  fit_labels : Labels
  fit_sample_weight : Option Weights
deriving DecidableEq, Repr

/-- Embedding of the data/label flow of `CATB.fit_and_predict`
(decoder_factory.py lines 150-200): `self.data_train`/`self.labels_train`
are reassigned to the split output (lines 172-182), and
`_balance_samples` is then called on those reassigned fields
(lines 184-190); the model is fit on the balancing result with the
eval_set from the split (lines 192-199). -/
def catbFitAndPredictTrace (caps : ResampleCaps) (split : FitSplitCap)
    (balancing : BMethod) (data_train : Data) (labels : Labels)
    (groups : Groups) : Except PyExc BoostTrace :=
  let (dtr, ltr, eval_set) := split data_train labels groups
  match balance_samples caps dtr ltr balancing with
  | .ok (db, lb, sw) => .ok ⟨(dtr, ltr), eval_set, db, lb, sw⟩
  | .error e => .error e

/-- Embedding of the data/label flow of `XGB.fit_and_predict`
(decoder_factory.py lines 473-523): the split output is assigned to
`self.data_train`/`self.labels_train` (lines 497-506), but
`_balance_samples` is then called with `data=data_train, labels=labels`,
the ORIGINAL method arguments (lines 507-513), overwriting the split
assignment; the model is fit on that balancing result with the eval_set
from the split (lines 515-522). -/
def xgbFitAndPredictTrace (caps : ResampleCaps) (split : FitSplitCap)
    (balancing : BMethod) (data_train : Data) (labels : Labels)
    (groups : Groups) : Except PyExc BoostTrace :=
  let (_dtr, _ltr, eval_set) := split data_train labels groups
  match balance_samples caps data_train labels balancing with
  | .ok (db, lb, sw) => .ok ⟨(data_train, labels), eval_set, db, lb, sw⟩
  | .error e => .error e

/-- A concrete validation-split capability for counterexamples: row 0 of
the two-row dataset [[0], [1]] is the training partition and row 1 the
held-out set, independent of the arguments. -/
def splitConst : FitSplitCap :=
  fun _ _ _ => ([[0]], [0], [([[1]], [1])])

lemma balance_single_oversample :
    balance_samples idCaps [[0]] [0] (.str "oversample")
      = .ok ([[0]], [0], none) := by
  unfold balance_samples
  rw [if_pos mean_zero]
  rfl

lemma balance_two_skip :
    balance_samples idCaps [[0], [1]] [0, 1] (.str "oversample")
      = .ok ([[0], [1]], [0, 1], none) := by
  unfold balance_samples
  rw [if_neg (not_not_intro mean_zero_one)]

/-- Concrete trace of the CATB pipeline on the two-row dataset with
`splitConst`. -/
def catbTrC : BoostTrace := ⟨([[0]], [0]), [([[1]], [1])], [[0]], [0], none⟩

/-- Concrete trace of the XGB pipeline on the two-row dataset with
`splitConst`. -/
def xgbTrX : BoostTrace :=
  ⟨([[0], [1]], [0, 1]), [([[1]], [1])], [[0], [1]], [0, 1], none⟩

lemma xgb_trace_concrete :
    xgbFitAndPredictTrace idCaps splitConst (.str "oversample")
        [[0], [1]] [0, 1] [0, 1] = .ok xgbTrX := by
  unfold xgbFitAndPredictTrace splitConst xgbTrX
  rw [balance_two_skip]

lemma catb_trace_concrete :
    catbFitAndPredictTrace idCaps splitConst (.str "oversample")
        [[0], [1]] [0, 1] [0, 1] = .ok catbTrC := by
  unfold catbFitAndPredictTrace splitConst catbTrC
  dsimp only
  rw [balance_single_oversample]

lemma not_dispatch_ne (s t : String) (h2 : s ∉ dispatchStrings)
    (ht : t ∈ dispatchStrings) : ¬(BMethod.str s = BMethod.str t) :=
  fun hc => h2 (by injection hc with h; rw [h]; exact ht)

/-- Claim C1: for a dataset whose label mean is not 0.5, calling
`_balance_samples` with method "balance_weights" is claimed to return
data and labels unchanged plus a balanced sample-weight vector without
raising.  The code instead raises `BalancingMethodNotFoundError` for
every such dataset, because the if/elif chain dispatches on the string
"weight" while only the allow-list mentions "balance_weights": the
raised error lists "balance_weights" among its own allowed values. -/
theorem c1_balance_weights_raises (caps : ResampleCaps) (data : Data)
    (labels : Labels) (h : listMean labels ≠ 1/2) :
    balance_samples caps data labels (.str "balance_weights")
      = .error (.balancingMethodNotFound (.str "balance_weights")
          balancingMethods) := by
  unfold balance_samples
  rw [if_pos h]
  rfl

/-- Witness for C1 at a concrete imbalanced dataset. -/
theorem c1_balance_weights_raises_witness :
    listMean [0, 1, 1] ≠ 1/2 ∧
    balance_samples idCaps [[1], [2], [3]] [0, 1, 1] (.str "balance_weights")
      = .error (.balancingMethodNotFound (.str "balance_weights")
          balancingMethods) :=
  ⟨mean_zero_one_one,
   c1_balance_weights_raises idCaps [[1], [2], [3]] [0, 1, 1]
     mean_zero_one_one⟩

/-- Claim C2: for a classifier name outside the registry (after
lowercasing), `get_decoder` is claimed to raise a `DecoderNotFoundError`
carrying the offending value and the allow-list, with no secondary
failure while building the error.  The code instead lets an
AttributeError escape: `DecoderNotFoundError.__init__` evaluates
`allowed.values` on the `classifiers.keys()` dict_keys view, which has
no attribute named `values`. -/
theorem c2_unknown_classifier_attribute_error (classifier scoring : String)
    (balancing : BMethod) (optimize : Bool)
    (h : strLower classifier ∉ registryNames) :
    get_decoder classifier scoring balancing optimize
      = .error (.attributeError "dict_keys object has no attribute values") := by
  unfold get_decoder
  dsimp only
  rw [if_neg h]
  rfl

/-- Witness for C2 at the concrete input "bogus". -/
theorem c2_unknown_classifier_attribute_error_witness :
    strLower "bogus" ∉ registryNames ∧
    get_decoder "bogus" "balanced_accuracy" .pyNone false
      = .error (.attributeError "dict_keys object has no attribute values") :=
  ⟨by decide,
   c2_unknown_classifier_attribute_error "bogus" "balanced_accuracy" .pyNone
     false (by decide)⟩

/-- Claim C3 counterexample: in `XGB.fit_and_predict` the balancing step
does NOT receive the training partition produced by the validation
split.  At this concrete input the split training partition is [[0]],
yet the trace shows `_balance_samples` received the original unsplit
data [[0], [1]] (and the model was fit on it). -/
theorem c3_xgb_balances_original_counterexample :
    xgbFitAndPredictTrace idCaps splitConst (.str "oversample")
        [[0], [1]] [0, 1] [0, 1] = .ok xgbTrX
    ∧ xgbTrX.balance_input = (([[0], [1]] : Data), ([0, 1] : Labels))
    ∧ (splitConst [[0], [1]] [0, 1] [0, 1]).1 = [[0]]
    ∧ xgbTrX.balance_input.1 ≠ (splitConst [[0], [1]] [0, 1] [0, 1]).1 := by
  refine ⟨xgb_trace_concrete, rfl, rfl, fun h => ?_⟩
  have := congrArg List.length h
  simp [xgbTrX, splitConst] at this

/-- Claim C3 amended: in `CATB.fit_and_predict` the balancing step
receives the training partition produced by the validation split and the
model is fit on the balancing result; in `XGB.fit_and_predict` the
balancing step instead receives the original unsplit data and labels
(the split-derived training partition is discarded except for the
eval_set) and the model is fit on that balancing result. -/
theorem c3_balancing_input_dataflow (caps : ResampleCaps)
    (split : FitSplitCap) (b : BMethod) (d : Data) (l : Labels) (g : Groups)
    (tr : BoostTrace) :
    (catbFitAndPredictTrace caps split b d l g = .ok tr →
      tr.balance_input = ((split d l g).1, (split d l g).2.1)
      ∧ balance_samples caps (split d l g).1 (split d l g).2.1 b
          = .ok (tr.fit_data, tr.fit_labels, tr.fit_sample_weight)
      ∧ tr.eval_set = (split d l g).2.2)
    ∧ (xgbFitAndPredictTrace caps split b d l g = .ok tr →
      tr.balance_input = (d, l)
      ∧ balance_samples caps d l b
          = .ok (tr.fit_data, tr.fit_labels, tr.fit_sample_weight)
      ∧ tr.eval_set = (split d l g).2.2) := by
  constructor
  · intro h
    unfold catbFitAndPredictTrace at h
    rcases hs : split d l g with ⟨dtr, ltr, es⟩
    rw [hs] at h
    dsimp only at h
    rcases hb : balance_samples caps dtr ltr b with e | ⟨db, lb, sw⟩
    · rw [hb] at h
      exact absurd h (by simp)
    · rw [hb] at h
      dsimp only at h
      injection h with h
      subst h
      exact ⟨rfl, rfl, rfl⟩
  · intro h
    unfold xgbFitAndPredictTrace at h
    rcases hs : split d l g with ⟨dtr, ltr, es⟩
    rw [hs] at h
    dsimp only at h
    rcases hb : balance_samples caps d l b with e | ⟨db, lb, sw⟩
    · rw [hb] at h
      exact absurd h (by simp)
    · rw [hb] at h
      dsimp only at h
      injection h with h
      subst h
      exact ⟨rfl, rfl, rfl⟩

/-- Witness for the amended C3 at concrete traces of both backends. -/
theorem c3_balancing_input_dataflow_witness :
    (catbTrC.balance_input
        = ((splitConst [[0], [1]] [0, 1] [0, 1]).1,
           (splitConst [[0], [1]] [0, 1] [0, 1]).2.1)
      ∧ balance_samples idCaps (splitConst [[0], [1]] [0, 1] [0, 1]).1
          (splitConst [[0], [1]] [0, 1] [0, 1]).2.1 (.str "oversample")
          = .ok (catbTrC.fit_data, catbTrC.fit_labels,
              catbTrC.fit_sample_weight)
      ∧ catbTrC.eval_set = (splitConst [[0], [1]] [0, 1] [0, 1]).2.2)
    ∧ (xgbTrX.balance_input = (([[0], [1]] : Data), ([0, 1] : Labels))
      ∧ balance_samples idCaps [[0], [1]] [0, 1] (.str "oversample")
          = .ok (xgbTrX.fit_data, xgbTrX.fit_labels, xgbTrX.fit_sample_weight)
      ∧ xgbTrX.eval_set = (splitConst [[0], [1]] [0, 1] [0, 1]).2.2) :=
  ⟨(c3_balancing_input_dataflow idCaps splitConst (.str "oversample")
      [[0], [1]] [0, 1] [0, 1] catbTrC).1 catb_trace_concrete,
   (c3_balancing_input_dataflow idCaps splitConst (.str "oversample")
      [[0], [1]] [0, 1] [0, 1] xgbTrX).2 xgb_trace_concrete⟩

/-- Claim C4 counterexample: an unknown method IS a silent pass-through
when the label mean equals 0.5 exactly.  The method string "bogus" is
outside the allow-list, yet `_balance_samples` returns the data and
labels unchanged with no error, because the skip rule is checked before
any method validation. -/
theorem c4_silent_pass_through_counterexample :
    balance_samples idCaps [[1], [2]] [0, 1] (.str "bogus")
      = .ok ([[1], [2]], [0, 1], none) := by
  unfold balance_samples
  rw [if_neg (not_not_intro mean_zero_one)]

/-- Claim C4 amended: for every dataset whose label mean is NOT exactly
0.5 and every method string outside the dispatched set {oversample,
smote, borderline_smote, adasyn, undersample, weight},
`_balance_samples` raises `BalancingMethodNotFoundError` carrying that
exact method value and the allow-list; when the label mean equals 0.5
exactly, any method, known or unknown, is a silent pass-through. -/
theorem c4_unknown_method_raises (caps : ResampleCaps) (d : Data)
    (l : Labels) (s : String) (h1 : listMean l ≠ 1/2)
    (h2 : s ∉ dispatchStrings) :
    balance_samples caps d l (.str s)
      = .error (.balancingMethodNotFound (.str s) balancingMethods) := by
  unfold balance_samples
  rw [if_pos h1,
      if_neg (not_dispatch_ne s "oversample" h2 (by decide)),
      if_neg (not_dispatch_ne s "smote" h2 (by decide)),
      if_neg (not_dispatch_ne s "borderline_smote" h2 (by decide)),
      if_neg (not_dispatch_ne s "adasyn" h2 (by decide)),
      if_neg (not_dispatch_ne s "undersample" h2 (by decide)),
      if_neg (not_dispatch_ne s "weight" h2 (by decide))]

/-- Witness for the amended C4 at the concrete unknown method "bogus"
and an imbalanced dataset. -/
theorem c4_unknown_method_raises_witness :
    listMean [0, 1, 1] ≠ 1/2 ∧ "bogus" ∉ dispatchStrings ∧
    balance_samples idCaps [[1], [2], [3]] [0, 1, 1] (.str "bogus")
      = .error (.balancingMethodNotFound (.str "bogus") balancingMethods) :=
  ⟨mean_zero_one_one, by decide,
   c4_unknown_method_raises idCaps [[1], [2], [3]] [0, 1, 1] "bogus"
     mean_zero_one_one (by decide)⟩

/-- Claim C5: when the label mean equals 0.5 exactly, `_balance_samples`
is a no-op for every requested method and every capability record: the
returned data and labels are the inputs themselves, the sample weight is
None, and no error is raised. -/
theorem c5_mean_half_no_op (caps : ResampleCaps) (d : Data) (l : Labels)
    (m : BMethod) (h : listMean l = 1/2) :
    balance_samples caps d l m = .ok (d, l, none) := by
  unfold balance_samples
  rw [if_neg (not_not_intro h)]

/-- Witness for C5 at a concrete perfectly balanced dataset. -/
theorem c5_mean_half_no_op_witness :
    listMean [0, 1] = 1/2 ∧
    balance_samples idCaps [[1], [2]] [0, 1] (.str "smote")
      = .ok ([[1], [2]], [0, 1], none) :=
  ⟨mean_zero_one, c5_mean_half_no_op idCaps [[1], [2]] [0, 1] (.str "smote")
    mean_zero_one⟩

/-- Claim C6: the claim says methods True, False and None are accepted by
`_balance_samples` (True as default oversampling, False/None as no-op).
The code instead raises `BalancingMethodNotFoundError` for all three on
any dataset whose label mean is not 0.5, even though its own allow-list
(carried inside the raised error) contains True and False, and None is
the documented default balancing value of the factory.  This theorem
evaluates the code at the failing inputs. -/
theorem c6_true_false_none_rejected :
    balance_samples idCaps [[1], [2], [3]] [0, 1, 1] .pyTrue
      = .error (.balancingMethodNotFound .pyTrue balancingMethods)
    ∧ balance_samples idCaps [[1], [2], [3]] [0, 1, 1] .pyFalse
      = .error (.balancingMethodNotFound .pyFalse balancingMethods)
    ∧ balance_samples idCaps [[1], [2], [3]] [0, 1, 1] .pyNone
      = .error (.balancingMethodNotFound .pyNone balancingMethods) := by
  refine ⟨?_, ?_, ?_⟩ <;>
    (unfold balance_samples; rw [if_pos mean_zero_one_one]; rfl)

/-- Claim C7: constructing an LDA or QDA decoder with balancing equal to
"balance_weights" raises, constructing either with optimize True raises,
and for every other balancing value with optimize False the
construction-time check succeeds.  The checks run in `__post_init__`,
before any data argument exists. -/
theorem c7_discriminant_construction_validation (b : BMethod) (o : Bool) :
    (ldaPostInit b o = .ok () ↔ (b ≠ .str "balance_weights" ∧ o = false))
    ∧ (qdaPostInit b o = .ok () ↔ (b ≠ .str "balance_weights" ∧ o = false)) := by
  constructor
  · unfold ldaPostInit
    by_cases hb : b = .str "balance_weights"
    · simp [hb]
    · cases o <;> simp [hb]
  · unfold qdaPostInit
    by_cases hb : b = .str "balance_weights"
    · simp [hb]
    · cases o <;> simp [hb]

/-- Witness for C7 at a concrete balancing value and optimize flag. -/
theorem c7_discriminant_construction_validation_witness :
    (ldaPostInit (.str "oversample") false = .ok ()
      ↔ (BMethod.str "oversample" ≠ .str "balance_weights" ∧ false = false))
    ∧ (qdaPostInit (.str "oversample") false = .ok ()
      ↔ (BMethod.str "oversample" ≠ .str "balance_weights" ∧ false = false)) :=
  c7_discriminant_construction_validation (.str "oversample") false

/-- Claim C8: when `_balance_samples` runs the adasyn branch and the
external resampling capability fails, the failure is swallowed exactly
when it is the ValueError whose first argument says no samples will be
generated under the provided ratio settings, in which case the original
data and labels are returned unchanged with sample weight None; every
other failure propagates out unchanged. -/
theorem c8_adasyn_error_handling (caps : ResampleCaps) (d : Data)
    (l : Labels) (e : PyExc) (h1 : listMean l ≠ 1/2)
    (h2 : caps.adasyn d l = .error e) :
    balance_samples caps d l (.str "adasyn")
      = if isNoSamplesAdasynError e then .ok (d, l, none) else .error e := by
  unfold balance_samples
  rw [if_pos h1, if_neg (by decide), if_neg (by decide), if_neg (by decide),
      if_pos rfl, h2]

/-- Witness for C8: the adasyn capability of `idCaps` reports the
degenerate no-samples ValueError, which is swallowed. -/
theorem c8_adasyn_error_handling_witness :
    listMean [0, 1, 1] ≠ 1/2
    ∧ idCaps.adasyn [[1], [2], [3]] [0, 1, 1]
        = .error (.valueError [noSamplesMsg])
    ∧ balance_samples idCaps [[1], [2], [3]] [0, 1, 1] (.str "adasyn")
        = if isNoSamplesAdasynError (.valueError [noSamplesMsg]) then
            .ok ([[1], [2], [3]], [0, 1, 1], none)
          else .error (.valueError [noSamplesMsg]) :=
  ⟨mean_zero_one_one, rfl,
   c8_adasyn_error_handling idCaps [[1], [2], [3]] [0, 1, 1]
     (.valueError [noSamplesMsg]) mean_zero_one_one rfl⟩

lemma selectRows_of_bounds (m : List (List ℚ)) (idx : List Nat)
    (h : ∀ i ∈ idx, i < m.length) :
    selectRows m idx = .ok (idx.map (fun i => m.getD i [])) := by
  unfold selectRows
  rw [if_pos (List.all_eq_true.mpr (fun i hi => decide_eq_true (h i hi)))]

/-- Claim C9 counterexample: the claimed contract does not hold for
every grouped dataset.  With a 1-D label vector (the shape of the label
vector in the data model and of the arguments the backends pass),
`_get_validation_split` raises an indexing error instead of returning
`(data_train, labels_train, [(data_val, labels_val)])`. -/
theorem c9_one_dim_labels_counterexample :
    getValidationSplit capZeroOne [[1], [2]] (.oneD [0, 1]) [0, 1] (4/5)
      = .error (.indexError "too many indices for array") := by rfl

/-- Claim C9 amended: when the labels argument is a two-dimensionally
indexable array and the grouped-split capability returns in-range index
sets, `_get_validation_split` consumes that single (train, val) index
pair and returns the training rows, the training label rows, and an
eval_set that is a one-element list containing the validation pair; the
rows on the two sides are selected exactly at the index sets of the
capability, so when the capability assigns no group id to both sides
(its contract, delegated to the external GroupShuffleSplit), no two
selected rows sharing a group id appear on opposite sides, and the
fraction of distinct groups sent to the training side is likewise
decided by the capability from train_size. -/
theorem c9_validation_split_structure (cap : GroupSplitCap) (data : Data)
    (m : List (List ℚ)) (groups : Groups) (ts : ℚ)
    (h1 : ∀ i ∈ (cap data (.twoD m) groups ts).1, i < data.length)
    (h2 : ∀ j ∈ (cap data (.twoD m) groups ts).2, j < data.length)
    (h3 : ∀ i ∈ (cap data (.twoD m) groups ts).1, i < m.length)
    (h4 : ∀ j ∈ (cap data (.twoD m) groups ts).2, j < m.length)
    (h5 : ∀ i ∈ (cap data (.twoD m) groups ts).1,
        ∀ j ∈ (cap data (.twoD m) groups ts).2,
        groups.getD i 0 ≠ groups.getD j 0) :
    getValidationSplit cap data (.twoD m) groups ts
      = .ok ((cap data (.twoD m) groups ts).1.map (fun i => data.getD i []),
          .twoD ((cap data (.twoD m) groups ts).1.map (fun i => m.getD i [])),
          [((cap data (.twoD m) groups ts).2.map (fun i => data.getD i []),
            .twoD ((cap data (.twoD m) groups ts).2.map
              (fun i => m.getD i [])))])
    ∧ (∀ gi ∈ (cap data (.twoD m) groups ts).1.map
          (fun i => groups.getD i 0),
        ∀ gj ∈ (cap data (.twoD m) groups ts).2.map
          (fun j => groups.getD j 0),
        gi ≠ gj) := by
  rcases hc : cap data (.twoD m) groups ts with ⟨ti, vi⟩
  rw [hc] at h1 h2 h3 h4 h5
  constructor
  · unfold getValidationSplit
    rw [hc]
    dsimp only [indexRows2D]
    rw [selectRows_of_bounds data ti h1, selectRows_of_bounds data vi h2,
        selectRows_of_bounds m ti h3, selectRows_of_bounds m vi h4]
    rfl
  · intro gi hgi gj hgj
    dsimp only at hgi hgj
    rcases List.mem_map.mp hgi with ⟨i, hi, rfl⟩
    rcases List.mem_map.mp hgj with ⟨j, hj, rfl⟩
    exact h5 i hi j hj

/-- Witness for the amended C9 at a concrete two-row dataset with 2-D
labels and the row-0 / row-1 split capability. -/
theorem c9_validation_split_structure_witness :
    getValidationSplit capZeroOne [[1], [2]] (.twoD [[0], [1]]) [0, 1] (4/5)
      = .ok ([[1]], .twoD [[0]], [([[2]], .twoD [[1]])])
    ∧ (∀ gi ∈ ([0] : List Nat).map (fun i => ([0, 1] : Groups).getD i 0),
        ∀ gj ∈ ([1] : List Nat).map (fun j => ([0, 1] : Groups).getD j 0),
        gi ≠ gj) :=
  c9_validation_split_structure capZeroOne [[1], [2]] [[0], [1]] [0, 1] (4/5)
    (by simp [capZeroOne]) (by simp [capZeroOne]) (by simp [capZeroOne])
    (by simp [capZeroOne]) (by simp [capZeroOne])

/-- Claim C10: whenever the labels argument of `_get_validation_split`
is a one-dimensional vector (the shape the backends pass), the
two-dimensional label indexing makes the call raise an error instead of
returning a split, for every dataset, group vector, train_size and
grouped-split capability.  Since the labels argument is either 1-D or
2-D, this also states that the operation only returns normally when the
labels support two-dimensional indexing. -/
theorem c10_one_dim_labels_raise (cap : GroupSplitCap) (data : Data)
    (v : List ℚ) (groups : Groups) (ts : ℚ) :
    ∃ e, getValidationSplit cap data (.oneD v) groups ts = .error e := by
  unfold getValidationSplit
  rcases hc : cap data (.oneD v) groups ts with ⟨ti, vi⟩
  dsimp only
  rcases hs : selectRows data ti with e | dt
  · exact ⟨e, rfl⟩
  · dsimp only
    rcases hs2 : selectRows data vi with e2 | dv
    · exact ⟨e2, rfl⟩
    · dsimp only [indexRows2D]
      exact ⟨.indexError "too many indices for array", rfl⟩
